import Mathlib

/-!
Shallow embedding of `src/todo.py` (classes `Task` and `TodoList`).

JSON scalar values appearing in a serialized task record are modelled by
`PyVal` (text, boolean, or null); a JSON object is modelled as an
association list `List (String × PyVal)` with first-match lookup (records
written by this program never repeat a key).  The backing file is modelled
by `FileData`: missing, existing-but-unparseable (with its raw content kept,
so that "the file is not rewritten" is expressible), or a parsed JSON array
of record objects.  File effects are made explicit: operations that write
return the new `FileData`, operations that only read leave it untouched.

Python's dynamic typing is restricted to the backing-file contract: a value
stored under `title`/`description`/`created_date` is text, `due_date` is
text or null, `completed` is a boolean; `from_dict` fails (Python
`KeyError`, and off-contract values are outside the model) when a required
key is missing.
-/

namespace Todo

/-- A JSON scalar as it appears in a task record. -/
inductive PyVal where
  | str (s : String)
  | bool (b : Bool)
  | null
deriving DecidableEq, Repr

/-- `class Task` (todo.py lines 5–11): the five fields of a task. -/
structure Task where
  title : String
  description : String
  created_date : String
  due_date : Option String
  completed : Bool
deriving DecidableEq, Repr, Inhabited

/-- `Task.__init__` (lines 6–11): `created_date` is the construction-time
clock reading, passed explicitly as `now`; `completed` starts `False`. -/
def Task.init (title : String) (description : String) (due_date : Option String)
    (now : String) : Task :=
  { title := title, description := description, created_date := now,
    due_date := due_date, completed := false }

/-- `Task.to_dict` (lines 13–20). -/
def Task.to_dict (t : Task) : List (String × PyVal) :=
  [ ("title", PyVal.str t.title),
    ("description", PyVal.str t.description),
    ("created_date", PyVal.str t.created_date),
    ("due_date", match t.due_date with | some s => PyVal.str s | none => PyVal.null),
    ("completed", PyVal.bool t.completed) ]

/-- Decode a text value. -/
def PyVal.asStr : PyVal → Option String
  | PyVal.str s => some s
  | _ => none

/-- Decode the `due_date` value: text or null (null means "not set"). -/
def PyVal.asOptStr : PyVal → Option (Option String)
  | PyVal.str s => some (some s)
  | PyVal.null => some none
  | _ => none

/-- Decode a boolean value. -/
def PyVal.asBool : PyVal → Option Bool
  | PyVal.bool b => some b
  | _ => none

/-- `Task.from_dict` (lines 22–27).  `data["k"]` is `lookup`; a missing key
is Python's `KeyError`, modelled as `none`.  The constructor call on line 24
sets `created_date` to the current clock and `completed` to `False`, but
lines 25–26 overwrite both from the mapping, so the net effect reads every
field from `data`. -/
def Task.from_dict (data : List (String × PyVal)) : Option Task := do
  let titleV ← data.lookup "title"
  let descV ← data.lookup "description"
  let dueV ← data.lookup "due_date"
  let createdV ← data.lookup "created_date"
  let complV ← data.lookup "completed"
  let title ← titleV.asStr
  let description ← descV.asStr
  let due_date ← dueV.asOptStr
  let created_date ← createdV.asStr
  let completed ← complV.asBool
  pure { title := title, description := description, created_date := created_date,
         due_date := due_date, completed := completed }

/-- The backing file: missing, existing but not valid JSON (raw content
kept), or a parsed JSON array of record objects. -/
inductive FileData where
  | missing
  | invalid (raw : String)
  | parsed (records : List (List (String × PyVal)))
deriving DecidableEq, Repr

/-- `class TodoList` (line 29): the in-memory ordered task sequence.  The
`filename` is fixed for the store's lifetime and the single backing file is
carried separately as a `FileData`. -/
structure TodoList where
  tasks : List Task
deriving DecidableEq, Repr

/-- The list comprehension on line 41: deserialize each record in file
order; a failing record aborts the whole load (the `KeyError` propagates,
since line 42 catches only `json.JSONDecodeError`). -/
def loadRecords : List (List (String × PyVal)) → Option (List Task)
  | [] => some []
  | r :: rs =>
    match Task.from_dict r with
    | some t =>
      match loadRecords rs with
      | some ts => some (t :: ts)
      | none => none
    | none => none

/-- Outcome of constructing a `TodoList`: either construction completes
with a store (and a flag recording whether the line-43 error message was
printed), or an uncaught exception escapes `__init__`. -/
inductive InitResult where
  | ok (store : TodoList) (reported : Bool)
  | raised
deriving DecidableEq, Repr

/-- `TodoList.load_tasks` (lines 35–46): a missing file gives an empty
sequence silently; an unparseable file prints the error and gives an empty
sequence (`json.JSONDecodeError` is caught); a parsed array is deserialized
record by record, and a record failure raises out of the constructor. -/
def TodoList.load_tasks (fd : FileData) : InitResult :=
  match fd with
  | FileData.missing => InitResult.ok ⟨[]⟩ false
  | FileData.invalid _ => InitResult.ok ⟨[]⟩ true
  | FileData.parsed records =>
    match loadRecords records with
    | some ts => InitResult.ok ⟨ts⟩ false
    | none => InitResult.raised

/-- `TodoList.__init__` (lines 30–33): construction loads from the backing
file; loading only reads, so the file component is returned unchanged. -/
def TodoList.init (fd : FileData) : InitResult × FileData :=
  (TodoList.load_tasks fd, fd)

/-- `TodoList.save_tasks` (lines 48–52): overwrite the backing file with
the serialization of the full in-memory sequence, in order. -/
def TodoList.save_tasks (st : TodoList) : FileData :=
  FileData.parsed (st.tasks.map Task.to_dict)

/-- `TodoList.add_task` (lines 54–59): construct, append, save, return the
new task.  The previous file content is irrelevant (save overwrites). -/
def TodoList.add_task (st : TodoList) (title : String) (description : String)
    (due_date : Option String) (now : String) : Task × TodoList × FileData :=
  let task := Task.init title description due_date now
  let st2 : TodoList := ⟨st.tasks ++ [task]⟩
  (task, st2, st2.save_tasks)

/-- `TodoList.complete_task` (lines 61–67).  `index` is a Python `int`,
hence `Int`; the chained comparison `0 <= index < len(...)` guards every
element access, so negative-index semantics never apply. -/
def TodoList.complete_task (st : TodoList) (fd : FileData) (index : Int) :
    Bool × TodoList × FileData :=
  if 0 ≤ index ∧ index < (st.tasks.length : Int) then
    let i := index.toNat
    let st2 : TodoList := ⟨st.tasks.set i { st.tasks[i]! with completed := true }⟩
    (true, st2, st2.save_tasks)
  else
    (false, st, fd)

/-- `TodoList.delete_task` (lines 69–75): `del self.tasks[index]`. -/
def TodoList.delete_task (st : TodoList) (fd : FileData) (index : Int) :
    Bool × TodoList × FileData :=
  if 0 ≤ index ∧ index < (st.tasks.length : Int) then
    let st2 : TodoList := ⟨st.tasks.eraseIdx index.toNat⟩
    (true, st2, st2.save_tasks)
  else
    (false, st, fd)

/-- `TodoList.get_tasks` (lines 77–81): read-only. -/
def TodoList.get_tasks (st : TodoList) (include_completed : Bool) : List Task :=
  if include_completed then st.tasks
  else st.tasks.filter (fun task => !task.completed)

/-- `TodoList.update_task` (lines 83–95).  Each parameter defaults to
`None`; the guards `if title:` etc. are Python truthiness on a value that is
either `None` or a string, so `none` and `some ""` both skip the field. -/
def TodoList.update_task (st : TodoList) (fd : FileData) (index : Int)
    (title : Option String) (description : Option String)
    (due_date : Option String) : Bool × TodoList × FileData :=
  if 0 ≤ index ∧ index < (st.tasks.length : Int) then
    let i := index.toNat
    let task := st.tasks[i]!
    let task := match title with
      | some s => if s = "" then task else { task with title := s }
      | none => task
    let task := match description with
      | some s => if s = "" then task else { task with description := s }
      | none => task
    let task := match due_date with
      | some s => if s = "" then task else { task with due_date := some s }
      | none => task
    let st2 : TodoList := ⟨st.tasks.set i task⟩
    (true, st2, st2.save_tasks)
  else
    (false, st, fd)

/-- An update argument of `some ""` and one of `none` take the same branch
in every guard of `update_task` (both are Python-falsy). -/
def emptyToNone : Option String → Option String
  | some "" => none
  | x => x


/-! ### Supporting lemmas -/

/-- The effect of one `update_task` text-field guard (`if title:` /
`if description:` on lines 87–90): overwrite only with a truthy string. -/
def applyField (cur : String) : Option String → String
  | some s => if s = "" then cur else s
  | none => cur

/-- The effect of the `due_date` guard of `update_task` (lines 91–92). -/
def applyDue (cur : Option String) : Option String → Option String
  | some s => if s = "" then cur else some s
  | none => cur

lemma update_task_in_bounds (st : TodoList) (fd : FileData) (index : Int)
    (title description due_date : Option String)
    (h : 0 ≤ index ∧ index < (st.tasks.length : Int)) :
    st.update_task fd index title description due_date =
      (true,
       ⟨st.tasks.set index.toNat
          { title := applyField (st.tasks[index.toNat]!).title title,
            description := applyField (st.tasks[index.toNat]!).description description,
            created_date := (st.tasks[index.toNat]!).created_date,
            due_date := applyDue (st.tasks[index.toNat]!).due_date due_date,
            completed := (st.tasks[index.toNat]!).completed }⟩,
       TodoList.save_tasks
         ⟨st.tasks.set index.toNat
            { title := applyField (st.tasks[index.toNat]!).title title,
              description := applyField (st.tasks[index.toNat]!).description description,
              created_date := (st.tasks[index.toNat]!).created_date,
              due_date := applyDue (st.tasks[index.toNat]!).due_date due_date,
              completed := (st.tasks[index.toNat]!).completed }⟩) := by
  rcases title with _ | s1 <;> rcases description with _ | s2 <;> rcases due_date with _ | s3 <;>
    simp only [TodoList.update_task, if_pos h, applyField, applyDue] <;>
    split_ifs <;> rfl

lemma set_getElem_bang_self {α : Type} [Inhabited α] (l : List α) (i : Nat)
    (h : i < l.length) : l.set i (l[i]!) = l := by
  rw [getElem!_pos l i h]
  apply List.ext_getElem?
  intro j
  rw [List.getElem?_set]
  by_cases hij : i = j
  · subst hij
    simp [h, List.getElem?_eq_getElem h]
  · simp [hij]

lemma applyField_skip (cur : String) (v : Option String)
    (hv : v = none ∨ v = some "") : applyField cur v = cur := by
  rcases hv with rfl | rfl <;> rfl

lemma applyField_write (cur : String) (s : String) (hs : s ≠ "") :
    applyField cur (some s) = s := by
  simp [applyField, hs]

lemma applyDue_skip (cur : Option String) (v : Option String)
    (hv : v = none ∨ v = some "") : applyDue cur v = cur := by
  rcases hv with rfl | rfl <;> rfl

lemma applyDue_write (cur : Option String) (s : String) (hs : s ≠ "") :
    applyDue cur (some s) = some s := by
  simp [applyDue, hs]

lemma applyField_emptyToNone (cur : String) (v : Option String) :
    applyField cur (emptyToNone v) = applyField cur v := by
  rcases v with _ | s
  · rfl
  · by_cases hs : s = "" <;> simp [emptyToNone, applyField, hs]

lemma applyDue_emptyToNone (cur : Option String) (v : Option String) :
    applyDue cur (emptyToNone v) = applyDue cur v := by
  rcases v with _ | s
  · rfl
  · by_cases hs : s = "" <;> simp [emptyToNone, applyDue, hs]

lemma loadRecords_eq_none (records : List (List (String × PyVal)))
    (r : List (String × PyVal)) (hr : r ∈ records)
    (hfail : Task.from_dict r = none) : loadRecords records = none := by
  induction records with
  | nil => cases hr
  | cons a rs ih =>
    rcases List.mem_cons.mp hr with rfl | hmem
    · simp [loadRecords, hfail]
    · unfold loadRecords
      cases Task.from_dict a with
      | none => rfl
      | some t => rw [ih hmem]

lemma from_dict_missing_key (data : List (String × PyVal))
    (h : data.lookup "title" = none ∨ data.lookup "description" = none ∨
         data.lookup "due_date" = none ∨ data.lookup "created_date" = none ∨
         data.lookup "completed" = none) : Task.from_dict data = none := by
  rcases h with h | h | h | h | h <;> simp [Task.from_dict, h]

/-! ### Claim theorems -/

/-- Claim C1: for every store and every index outside `[0, len(tasks))`,
each of `complete_task`, `delete_task` and `update_task` returns the
boolean `false` (no exception), leaves the task sequence unchanged, and
does not touch the backing file; in particular, on an empty store, all
three at index 0 fail and the store stays empty. -/
theorem out_of_bounds_mutations_fail (st : TodoList) (fd : FileData) (index : Int)
    (title description due_date : Option String)
    (h : ¬ (0 ≤ index ∧ index < (st.tasks.length : Int))) :
    st.complete_task fd index = (false, st, fd) ∧
    st.delete_task fd index = (false, st, fd) ∧
    st.update_task fd index title description due_date = (false, st, fd) ∧
    (⟨[]⟩ : TodoList).complete_task fd 0 = (false, ⟨[]⟩, fd) ∧
    (⟨[]⟩ : TodoList).delete_task fd 0 = (false, ⟨[]⟩, fd) ∧
    (⟨[]⟩ : TodoList).update_task fd 0 title description due_date = (false, ⟨[]⟩, fd) := by
  refine ⟨?_, ?_, ?_, rfl, rfl, rfl⟩ <;>
    simp [TodoList.complete_task, TodoList.delete_task, TodoList.update_task, h]

/-- Witness for C1: the empty store rejects index 0 on all three mutators. -/
theorem out_of_bounds_mutations_fail_witness :
    (⟨[]⟩ : TodoList).complete_task FileData.missing 0 = (false, ⟨[]⟩, FileData.missing) ∧
    (⟨[]⟩ : TodoList).delete_task FileData.missing 0 = (false, ⟨[]⟩, FileData.missing) ∧
    (⟨[]⟩ : TodoList).update_task FileData.missing 0 none none none
      = (false, ⟨[]⟩, FileData.missing) := by
  have h := out_of_bounds_mutations_fail ⟨[]⟩ FileData.missing 0 none none none (by decide)
  exact ⟨h.1, h.2.1, h.2.2.1⟩

/-- Claim C2: for every task `t`, `from_dict (to_dict t)` reproduces `t`
exactly field for field — `created_date` and `completed` are read back from
the mapping, not regenerated, so all five fields round-trip. -/
theorem deserialize_serialize_roundtrip (t : Task) :
    Task.from_dict (Task.to_dict t) = some t := by
  cases t with
  | mk title description created_date due_date completed =>
    cases due_date <;> rfl

/-- Counterexample to claim C3 as stated: a valid JSON array containing a
record that lacks required keys does not make construction fall back to an
empty store — the outcome is an uncaught exception, never `ok ⟨[]⟩ _`. -/
theorem missing_key_record_raises_counterexample :
    TodoList.init (FileData.parsed [[("title", PyVal.str "A")]])
      = (InitResult.raised, FileData.parsed [[("title", PyVal.str "A")]]) ∧
    InitResult.raised ≠ InitResult.ok ⟨[]⟩ true ∧
    InitResult.raised ≠ InitResult.ok ⟨[]⟩ false := by
  refine ⟨rfl, ?_, ?_⟩ <;> intro hco <;> cases hco

/-- Claim C3 (amended): deserialization of a record lacking a required key
fails, but during load this failure is not caught (line 42 catches only
`json.JSONDecodeError`), so the exception escapes construction and no
empty-sequence fallback occurs. -/
theorem missing_key_record_escapes_load :
    (∀ data : List (String × PyVal),
      (data.lookup "title" = none ∨ data.lookup "description" = none ∨
       data.lookup "due_date" = none ∨ data.lookup "created_date" = none ∨
       data.lookup "completed" = none) → Task.from_dict data = none) ∧
    (∀ (records : List (List (String × PyVal))) (r : List (String × PyVal)),
      r ∈ records → Task.from_dict r = none →
      TodoList.init (FileData.parsed records)
        = (InitResult.raised, FileData.parsed records)) := by
  constructor
  · exact from_dict_missing_key
  · intro records r hr hfail
    simp only [TodoList.init, TodoList.load_tasks,
      loadRecords_eq_none records r hr hfail]

/-- Witness for the amended C3: a file holding one empty record raises. -/
theorem missing_key_record_escapes_load_witness :
    Task.from_dict [] = none ∧
    TodoList.init (FileData.parsed [[]])
      = (InitResult.raised, FileData.parsed [[]]) := by
  refine ⟨missing_key_record_escapes_load.1 [] (Or.inl rfl), ?_⟩
  exact missing_key_record_escapes_load.2 [[]] [] (by simp)
    (missing_key_record_escapes_load.1 [] (Or.inl rfl))

/-- Claim C4: a missing backing file yields an empty store with no reported
condition; an unparseable file yields an empty store with the condition
reported, no exception escapes, and the file content is left untouched. -/
theorem load_fallback_empty_store :
    TodoList.init FileData.missing = (InitResult.ok ⟨[]⟩ false, FileData.missing) ∧
    (∀ raw : String,
      TodoList.init (FileData.invalid raw)
        = (InitResult.ok ⟨[]⟩ true, FileData.invalid raw)) :=
  ⟨rfl, fun _ => rfl⟩

/-- Counterexample to claim C5 as stated: a record conforming to the spec's
file-format contract with the `due_date` key absent (one of the allowed
shapes per the claim) is rejected — `data["due_date"]` on line 24 raises
`KeyError`, so deserialization fails instead of succeeding. -/
theorem absent_due_date_rejected_counterexample :
    Task.from_dict
      [("title", PyVal.str "Buy milk"), ("description", PyVal.str ""),
       ("created_date", PyVal.str "2024-01-01 00:00:00"),
       ("completed", PyVal.bool false)] = none := by
  rfl

/-- Claim C5 (amended): load accepts every record in which all five keys
are present and `due_date` holds text or null; a null `due_date`
deserializes to "not set". A record whose `due_date` key is absent fails. -/
theorem contract_record_deserializes (data : List (String × PyVal))
    (title description created_date : String) (due_date : Option String) (completed : Bool)
    (ht : data.lookup "title" = some (PyVal.str title))
    (hd : data.lookup "description" = some (PyVal.str description))
    (hu : data.lookup "due_date"
      = some (match due_date with | some s => PyVal.str s | none => PyVal.null))
    (hc : data.lookup "created_date" = some (PyVal.str created_date))
    (hm : data.lookup "completed" = some (PyVal.bool completed)) :
    Task.from_dict data
      = some ⟨title, description, created_date, due_date, completed⟩ := by
  cases due_date <;> simp [Task.from_dict, ht, hd, hu, hc, hm, PyVal.asStr,
    PyVal.asOptStr, PyVal.asBool]

/-- Witness for the amended C5: a five-key record with null `due_date`. -/
theorem contract_record_deserializes_witness :
    Task.from_dict
      [("title", PyVal.str "A"), ("description", PyVal.str "B"),
       ("due_date", PyVal.null), ("created_date", PyVal.str "C"),
       ("completed", PyVal.bool true)]
      = some ⟨"A", "B", "C", none, true⟩ :=
  contract_record_deserializes _ "A" "B" "C" none true rfl rfl rfl rfl rfl

/-- Claim C6: on `[A, B, C]`, `delete_task 0` succeeds and yields `[B, C]`
(later tasks shift down), and a subsequent `complete_task 0` marks `B`,
not `A`. -/
theorem delete_shifts_indices (A B C : Task) (fd : FileData) :
    (⟨[A, B, C]⟩ : TodoList).delete_task fd 0
      = (true, ⟨[B, C]⟩, TodoList.save_tasks ⟨[B, C]⟩) ∧
    (((⟨[A, B, C]⟩ : TodoList).delete_task fd 0).2.1.complete_task
        ((⟨[A, B, C]⟩ : TodoList).delete_task fd 0).2.2 0)
      = (true, ⟨[{ B with completed := true }, C]⟩,
         TodoList.save_tasks ⟨[{ B with completed := true }, C]⟩) :=
  ⟨rfl, rfl⟩

/-- Claim C7: for every in-bounds index, `update_task` returns success,
overwrites exactly the fields supplied as non-absent non-empty strings,
leaves absent/empty fields (and `created_date`, `completed`, and every
other task) unchanged, and an empty-string argument is indistinguishable
from an absent one — so a title or description cannot be cleared. -/
theorem update_field_semantics (st : TodoList) (fd : FileData) (index : Int)
    (title description due_date : Option String)
    (h : 0 ≤ index ∧ index < (st.tasks.length : Int)) :
    (st.update_task fd index title description due_date).1 = true ∧
    (st.update_task fd index title description due_date).2.1.tasks.length
      = st.tasks.length ∧
    (∀ j : Nat, j ≠ index.toNat →
      (st.update_task fd index title description due_date).2.1.tasks[j]?
        = st.tasks[j]?) ∧
    ((st.update_task fd index title description due_date).2.1.tasks[index.toNat]!).created_date
      = (st.tasks[index.toNat]!).created_date ∧
    ((st.update_task fd index title description due_date).2.1.tasks[index.toNat]!).completed
      = (st.tasks[index.toNat]!).completed ∧
    ((title = none ∨ title = some "") →
      ((st.update_task fd index title description due_date).2.1.tasks[index.toNat]!).title
        = (st.tasks[index.toNat]!).title) ∧
    (∀ s : String, title = some s → s ≠ "" →
      ((st.update_task fd index title description due_date).2.1.tasks[index.toNat]!).title = s) ∧
    ((description = none ∨ description = some "") →
      ((st.update_task fd index title description due_date).2.1.tasks[index.toNat]!).description
        = (st.tasks[index.toNat]!).description) ∧
    (∀ s : String, description = some s → s ≠ "" →
      ((st.update_task fd index title description due_date).2.1.tasks[index.toNat]!).description = s) ∧
    ((due_date = none ∨ due_date = some "") →
      ((st.update_task fd index title description due_date).2.1.tasks[index.toNat]!).due_date
        = (st.tasks[index.toNat]!).due_date) ∧
    (∀ s : String, due_date = some s → s ≠ "" →
      ((st.update_task fd index title description due_date).2.1.tasks[index.toNat]!).due_date
        = some s) ∧
    st.update_task fd index (emptyToNone title) (emptyToNone description) (emptyToNone due_date)
      = st.update_task fd index title description due_date := by
  have hi : index.toNat < st.tasks.length := by omega
  have hset : ∀ tk : Task, (st.tasks.set index.toNat tk)[index.toNat]! = tk := by
    intro tk
    rw [getElem!_pos _ _ (by simpa using hi)]
    exact List.getElem_set_self _
  rw [update_task_in_bounds st fd index title description due_date h,
      update_task_in_bounds st fd index (emptyToNone title) (emptyToNone description)
        (emptyToNone due_date) h]
  refine ⟨rfl, by simp, ?_, ?_, ?_, ?_, ?_, ?_, ?_, ?_, ?_, ?_⟩
  · intro j hj
    exact List.getElem?_set_ne (Ne.symm hj)
  · rw [hset]
  · rw [hset]
  · intro hv
    rw [hset]
    exact applyField_skip _ _ hv
  · intro s hs hne
    rw [hset]
    subst hs
    exact applyField_write _ _ hne
  · intro hv
    rw [hset]
    exact applyField_skip _ _ hv
  · intro s hs hne
    rw [hset]
    subst hs
    exact applyField_write _ _ hne
  · intro hv
    rw [hset]
    exact applyDue_skip _ _ hv
  · intro s hs hne
    rw [hset]
    subst hs
    exact applyDue_write _ _ hne
  · simp [applyField_emptyToNone, applyDue_emptyToNone]

/-- Witness for C7: updating the title with a non-empty string overwrites
it, while an empty-string description argument is skipped. -/
theorem update_field_semantics_witness :
    ((⟨[Task.init "A" "B" none "T"]⟩ : TodoList).update_task FileData.missing 0
        (some "X") (some "") none).1 = true ∧
    (((⟨[Task.init "A" "B" none "T"]⟩ : TodoList).update_task FileData.missing 0
        (some "X") (some "") none).2.1.tasks[(0 : Int).toNat]!).title = "X" ∧
    (((⟨[Task.init "A" "B" none "T"]⟩ : TodoList).update_task FileData.missing 0
        (some "X") (some "") none).2.1.tasks[(0 : Int).toNat]!).description
      = ((⟨[Task.init "A" "B" none "T"]⟩ : TodoList).tasks[(0 : Int).toNat]!).description := by
  have h := update_field_semantics ⟨[Task.init "A" "B" none "T"]⟩ FileData.missing 0
    (some "X") (some "") none (by decide)
  exact ⟨h.1, h.2.2.2.2.2.2.1 "X" rfl (by decide), h.2.2.2.2.2.2.2.1 (Or.inr rfl)⟩

/-- Claim C8: `get_tasks true` returns the full sequence; `get_tasks false`
returns exactly the tasks whose completed flag is false, preserving
relative order and field values, with no effect on the store (it is a pure
function of it); on completed flags `[true, false, true]` it returns
exactly the middle task. -/
theorem get_tasks_filter_correct (st : TodoList) (a b c : Task)
    (ha : a.completed = true) (hb : b.completed = false) (hc : c.completed = true) :
    st.get_tasks true = st.tasks ∧
    (st.get_tasks false).Sublist st.tasks ∧
    (∀ t : Task, t ∈ st.get_tasks false ↔ t ∈ st.tasks ∧ t.completed = false) ∧
    (⟨[a, b, c]⟩ : TodoList).get_tasks false = [b] := by
  refine ⟨rfl, List.filter_sublist st.tasks, ?_, ?_⟩
  · intro t
    simp [TodoList.get_tasks, List.mem_filter]
  · simp [TodoList.get_tasks, List.filter_cons, ha, hb, hc]

/-- Witness for C8: flags `[true, false, true]` give exactly the middle
task. -/
theorem get_tasks_filter_correct_witness :
    (⟨[⟨"a", "", "t", none, true⟩, ⟨"b", "", "t", none, false⟩,
       ⟨"c", "", "t", none, true⟩]⟩ : TodoList).get_tasks false
      = [⟨"b", "", "t", none, false⟩] :=
  (get_tasks_filter_correct ⟨[]⟩ ⟨"a", "", "t", none, true⟩ ⟨"b", "", "t", none, false⟩
    ⟨"c", "", "t", none, true⟩ rfl rfl rfl).2.2.2

/-- Claim C9: every successful mutation (add, complete, delete, update)
leaves the backing file equal to the serialization of the entire resulting
in-memory sequence, in order (`save_tasks`); a failed out-of-bounds
mutation leaves both the store and the file untouched. -/
theorem mutations_persist_full_rewrite (st : TodoList) (fd : FileData) (index : Int)
    (title description : String) (due_date : Option String) (now : String)
    (ot od ou : Option String) :
    ((st.add_task title description due_date now).2.2
      = (st.add_task title description due_date now).2.1.save_tasks) ∧
    (((st.complete_task fd index).1 = true →
        (st.complete_task fd index).2.2 = (st.complete_task fd index).2.1.save_tasks) ∧
     ((st.complete_task fd index).1 = false →
        (st.complete_task fd index).2.1 = st ∧ (st.complete_task fd index).2.2 = fd)) ∧
    (((st.delete_task fd index).1 = true →
        (st.delete_task fd index).2.2 = (st.delete_task fd index).2.1.save_tasks) ∧
     ((st.delete_task fd index).1 = false →
        (st.delete_task fd index).2.1 = st ∧ (st.delete_task fd index).2.2 = fd)) ∧
    (((st.update_task fd index ot od ou).1 = true →
        (st.update_task fd index ot od ou).2.2
          = (st.update_task fd index ot od ou).2.1.save_tasks) ∧
     ((st.update_task fd index ot od ou).1 = false →
        (st.update_task fd index ot od ou).2.1 = st
          ∧ (st.update_task fd index ot od ou).2.2 = fd)) := by
  refine ⟨rfl, ?_, ?_, ?_⟩ <;>
    by_cases h : 0 ≤ index ∧ index < (st.tasks.length : Int) <;>
    simp [TodoList.complete_task, TodoList.delete_task, TodoList.update_task, h]

/-- Witness for C9: a successful completion syncs the file; a failed one on
the empty store rewrites nothing. -/
theorem mutations_persist_full_rewrite_witness :
    ((⟨[Task.init "A" "" none "T"]⟩ : TodoList).complete_task FileData.missing 0).2.2
      = ((⟨[Task.init "A" "" none "T"]⟩ : TodoList).complete_task
          FileData.missing 0).2.1.save_tasks ∧
    ((⟨[]⟩ : TodoList).complete_task FileData.missing 0).2.1 = ⟨[]⟩ ∧
    ((⟨[]⟩ : TodoList).complete_task FileData.missing 0).2.2 = FileData.missing := by
  refine ⟨(mutations_persist_full_rewrite ⟨[Task.init "A" "" none "T"]⟩
    FileData.missing 0 "A" "" none "T" none none none).2.1.1 rfl, ?_⟩
  exact (mutations_persist_full_rewrite ⟨[]⟩
    FileData.missing 0 "A" "" none "T" none none none).2.1.2 rfl

/-- Claim C10: an in-bounds `update_task` with every field absent or the
empty string returns success, changes no task, and still rewrites the
backing file with the serialization of the unchanged sequence. -/
theorem update_noop_persists (st : TodoList) (fd : FileData) (index : Int)
    (title description due_date : Option String)
    (h : 0 ≤ index ∧ index < (st.tasks.length : Int))
    (ht : title = none ∨ title = some "")
    (hd : description = none ∨ description = some "")
    (hu : due_date = none ∨ due_date = some "") :
    st.update_task fd index title description due_date
      = (true, st, st.save_tasks) := by
  have hi : index.toNat < st.tasks.length := by omega
  rw [update_task_in_bounds st fd index title description due_date h,
    applyField_skip _ _ ht, applyField_skip _ _ hd, applyDue_skip _ _ hu]
  have hrec : st.tasks.set index.toNat
      { title := (st.tasks[index.toNat]!).title,
        description := (st.tasks[index.toNat]!).description,
        created_date := (st.tasks[index.toNat]!).created_date,
        due_date := (st.tasks[index.toNat]!).due_date,
        completed := (st.tasks[index.toNat]!).completed } = st.tasks :=
    set_getElem_bang_self st.tasks index.toNat hi
  rw [hrec]

/-- Witness for C10: a one-task store, updated at 0 with all fields skipped,
returns success, keeps the task, and re-persists identical content. -/
theorem update_noop_persists_witness :
    (⟨[Task.init "A" "B" none "T"]⟩ : TodoList).update_task FileData.missing 0
        none (some "") none
      = (true, ⟨[Task.init "A" "B" none "T"]⟩,
         (⟨[Task.init "A" "B" none "T"]⟩ : TodoList).save_tasks) :=
  update_noop_persists ⟨[Task.init "A" "B" none "T"]⟩ FileData.missing 0
    none (some "") none (by decide) (Or.inl rfl) (Or.inr rfl) (Or.inl rfl)

end Todo
